import Mathlib

/-!
Verification development for the barcode-generator label layout code.
The pure layout logic of the repository (unit conversion, symbol sizing,
font scaling, the recursive shrink-to-fit text algorithm, text anchoring,
validation, and the pipeline control flow) is embedded directly from the
Go sources.  The two external collaborators, the freetype text rasterizer
and the barcode scaler, are modelled as explicit parameters: a
TextRasterizer record of measurement functions and a scale function that
returns an optional error message.  Go machine integers are modelled as
Int, Go float64 values as Rat, and the Go int(x) float-to-int conversion
as truncation toward zero.  The unbounded Go recursion in
addTextLineRecursive is modelled with an explicit recursion-depth
argument; a none result means the recursion did not finish within that
depth.
-/

namespace BarcodeGen

/-- Truncation toward zero, the Go int(x) conversion applied to float64
values: floor for nonnegative arguments, ceiling for negative ones. -/
def goTrunc (q : ℚ) : ℤ := if 0 ≤ q then ⌊q⌋ else ⌈q⌉

/-- Constant labelMarginPixels = 10 from the dimensions file. -/
def labelMarginPixels : ℤ := 10

/-- Standard thermal printer DPI list from barcode.go. -/
def standardDPIValues : List ℤ := [203, 300, 600]

/-- Embeds mmToPixels: int(mm * float64(dpi) / 25.4). -/
def mmToPixels (mm : ℚ) (dpi : ℤ) : ℤ := goTrunc (mm * (dpi : ℚ) / (254 / 10))

/-- Embeds the TextLine struct with fields Text, Position, Size.  The Go
types TextPosition and TextSize are string types, so both are String. -/
structure TextLine where
  text : String
  position : String
  size : String

/-- Embeds the BarcodeInput struct: data, type, physical width and height
in millimeters, printer DPI, and the text lines. -/
structure BarcodeInput where
  barcodeData : String
  barcodeType : String
  width : ℚ
  height : ℚ
  dpi : ℤ
  textLines : List TextLine

/-- Abstract model of the freetype rasterizer collaborator.  measureWidth
is font.MeasureString(face, text).Ceil() at a point size and dpi, an
integer pixel width; lineHeight is calculateFontHeight, the pixel line
height at a point size and dpi. -/
structure TextRasterizer where
  measureWidth : String → ℚ → ℤ → ℤ
  lineHeight : ℚ → ℤ → ℚ

/-- Embeds getBaseFontSize: SMALL 8.0, MEDIUM 10.0, LARGE 12.0, default
branch 10.0. -/
def getBaseFontSize (size : String) : ℚ :=
  if size = "SMALL" then 8
  else if size = "MEDIUM" then 10
  else if size = "LARGE" then 12
  else 10

/-- Embeds scaleFontByLabelWidth: scale factor 1 + (labelWidth-200)/1000,
clamped above at 2.0 and below at 1.1, multiplied into the font size. -/
def scaleFontByLabelWidth (fontSize : ℚ) (labelWidth : ℤ) : ℚ :=
  let scaleFactor : ℚ := 1 + ((labelWidth : ℚ) - 200) / 1000
  let clamped : ℚ :=
    if scaleFactor > 2 then 2
    else if scaleFactor < 11 / 10 then 11 / 10
    else scaleFactor
  fontSize * clamped

/-- Embeds getFontSize: the scaled point size together with the pixel line
height at that size, the latter delegated to the rasterizer model in
place of calculateFontHeight. -/
def getFontSize (R : TextRasterizer) (size : String) (dpi labelWidth : ℤ) : ℚ × ℚ :=
  let scaledFontSize := scaleFontByLabelWidth (getBaseFontSize size) labelWidth
  (scaledFontSize, R.lineHeight scaledFontSize dpi)

/-- Embeds calculateTextHeight: sums height * 2 over all text lines, where
the height always comes from getFontSize with labelWidth argument 200. -/
def calculateTextHeight (R : TextRasterizer) (input : BarcodeInput) : ℚ :=
  input.textLines.foldl
    (fun totalHeight textLine =>
      totalHeight + (getFontSize R textLine.size input.dpi 200).2 * 2) 0

/-- Embeds calculateCode128Size: width = labelWidth - 2 margins, height =
min(labelHeight/2, 200) with Go integer division. -/
def calculateCode128Size (labelWidth labelHeight : ℤ) : ℤ × ℤ :=
  (labelWidth - labelMarginPixels * 2, min (Int.tdiv labelHeight 2) 200)

/-- Embeds calculateQRSize: the side is min of the smaller label dimension
and the label height less the reserved text height, truncated to int. -/
def calculateQRSize (R : TextRasterizer) (input : BarcodeInput)
    (labelWidth labelHeight : ℤ) : ℤ × ℤ :=
  let maxSize : ℤ := min labelWidth labelHeight
  let availableHeight : ℚ := (labelHeight : ℚ) - calculateTextHeight R input
  let finalSize : ℤ := goTrunc (min ((maxSize : ℤ) : ℚ) availableHeight)
  (finalSize, finalSize)

/-- Embeds calculateBarcodeSize: dispatch on the barcode type string. -/
def calculateBarcodeSize (R : TextRasterizer) (input : BarcodeInput)
    (labelWidth labelHeight : ℤ) : ℤ × ℤ :=
  if input.barcodeType = "CODE128" then calculateCode128Size labelWidth labelHeight
  else calculateQRSize R input labelWidth labelHeight

/-- Embeds calculateTextYPosition: Min.Y of the barcode rect for ABOVE,
Max.Y otherwise. -/
def calculateTextYPosition (barcodeRectMinY barcodeRectMaxY : ℤ) (position : String) : ℤ :=
  if position = "ABOVE" then barcodeRectMinY else barcodeRectMaxY

/-- Embeds addTextLineRecursive.  Each level measures the text at the
current size; if the measured width exceeds the image width minus two
margins it recurses at fontSize - 0.1, otherwise it calls drawText and
the resolved size is returned.  The natural number is the modelled
recursion depth and a none result means no draw happened within it. -/
def addTextLineRecursive (R : TextRasterizer) (text : String) (imgWidth dpi : ℤ) :
    ℕ → ℚ → Option ℚ
  | 0, _ => none
  | fuel + 1, fontSize =>
    if R.measureWidth text fontSize dpi > imgWidth - labelMarginPixels * 2 then
      addTextLineRecursive R text imgWidth dpi fuel (fontSize - 1 / 10)
    else some fontSize

/-- Embeds addTextLine: the starting candidate size is the first component
of getFontSize taken at the image (canvas) width. -/
def addTextLine (R : TextRasterizer) (text sizeClass : String)
    (dpi imgWidth : ℤ) (fuel : ℕ) : Option ℚ :=
  addTextLineRecursive R text imgWidth dpi fuel (getFontSize R sizeClass dpi imgWidth).1

/-- Pixel line height actually drawn for a text line.  The recursion
recomputes calculateFontHeight at every shrink step, so the drawn height
is the line height at the resolved size. -/
def fittedLineHeight (R : TextRasterizer) (text sizeClass : String)
    (dpi imgWidth : ℤ) (fuel : ℕ) : Option ℚ :=
  Option.map (fun s => R.lineHeight s dpi) (addTextLine R text sizeClass dpi imgWidth fuel)

/-- Embeds the vertical adjustment in drawText: margin = int(fontHeight)/2
with Go truncating division; ABOVE draws at baseY - margin and BELOW at
baseY + margin*2 + 5. -/
def drawTextAdjustedY (baseY : ℤ) (fontHeight : ℚ) (position : String) : ℤ :=
  let margin : ℤ := Int.tdiv (goTrunc fontHeight) 2
  if position = "ABOVE" then baseY - margin
  else if position = "BELOW" then baseY + margin * 2 + 5
  else baseY

/-- Embeds validateDPI: nil when the dpi is in the standard list, an error
message otherwise. -/
def validateDPI (dpi : ℤ) : Option String :=
  if dpi ∈ standardDPIValues then none else some ("invalid dpi value")

/-- Embeds validateBarcodeType: nil for CODE128 and QR, an error message
otherwise. -/
def validateBarcodeType (barcodeType : String) : Option String :=
  if barcodeType = "CODE128" ∨ barcodeType = "QR" then none
  else some ("invalid barcode type")

/-- Embeds validateInput: DPI check first, then the type check. -/
def validateInput (input : BarcodeInput) : Option String :=
  match validateDPI input.dpi with
  | some e => some e
  | none => validateBarcodeType input.barcodeType

/-- Embeds the GenerateBarcode and renderLabel control flow through the
layout stage.  encode models encodeBarcode and scale models the
barcode.Scale collaborator, each returning an error message or nil.  On
success the output carries the canvas and symbol dimensions from which
the collaborator-produced PNG and ZPL are derived; on any error the
pipeline propagates it and produces no output. -/
def generateBarcode (R : TextRasterizer) (encode : String → String → Option String)
    (scale : ℤ → ℤ → Option String) (input : BarcodeInput) :
    Except String (ℤ × ℤ × ℤ × ℤ) :=
  match validateInput input with
  | some e => Except.error e
  | none =>
    match encode input.barcodeType input.barcodeData with
    | some e => Except.error e
    | none =>
      let labelWidth := mmToPixels input.width input.dpi
      let labelHeight := mmToPixels input.height input.dpi
      let size := calculateBarcodeSize R input labelWidth labelHeight
      match scale size.1 size.2 with
      | some e => Except.error e
      | none => Except.ok (labelWidth, labelHeight, size.1, size.2)

/-- Spec-side definition written from the wording of claim C5, for the
refinement comparison: the reserved text height as the sum over lines of
2 times the line height at the size at which the fitter starts, namely
the size scaled by the actual label width. -/
def claimedTextHeight (R : TextRasterizer) (input : BarcodeInput) (labelWidth : ℤ) : ℚ :=
  input.textLines.foldl
    (fun totalHeight textLine =>
      totalHeight + (getFontSize R textLine.size input.dpi labelWidth).2 * 2) 0

/-- Rasterizer in which every text fits immediately and every line is 40
pixels high. -/
def flatR : TextRasterizer := ⟨fun _ _ _ => 0, fun _ _ => 40⟩

/-- Rasterizer with constant 30 pixel line height. -/
def constR30 : TextRasterizer := ⟨fun _ _ _ => 0, fun _ _ => 30⟩

/-- Rasterizer with constant 10 pixel line height. -/
def tenR : TextRasterizer := ⟨fun _ _ _ => 0, fun _ _ => 10⟩

/-- Rasterizer whose line height equals the point size. -/
def idR : TextRasterizer := ⟨fun _ _ _ => 0, fun s _ => s⟩

/-- Rasterizer in which every text measures 1000 pixels wide at every
size, so nothing ever fits a narrow canvas. -/
def bigR : TextRasterizer := ⟨fun _ _ _ => 1000, fun _ _ => 12⟩

/-- Rasterizer whose measured width is a monotone step function of the
point size: 280 pixels up to size 11, then 282 pixels. -/
def stepR : TextRasterizer := ⟨fun _ s _ => if s ≤ 11 then 280 else 282, fun _ _ => 12⟩

/-- Rasterizer whose measured width is 250 above size 10.8 and 200 at or
below it, monotone in the point size. -/
def windowR : TextRasterizer := ⟨fun _ s _ => if s > 54 / 5 then 250 else 200, fun _ _ => 12⟩

/-- Encoder collaborator that accepts every payload. -/
def encodeOk : String → String → Option String := fun _ _ => none

/-- Scaler collaborator that accepts every target size. -/
def scaleOk : ℤ → ℤ → Option String := fun _ _ => none

/-- Scaler collaborator that rejects non-positive target sizes, as the
production barcode scaling library does. -/
def scaleRej : ℤ → ℤ → Option String :=
  fun w h => if w ≤ 0 ∨ h ≤ 0 then some ("cannot scale") else none

/-- QR request on a 100 x 100 pixel canvas (at 300 DPI) with two MEDIUM
lines, whose reserved text height 120 exceeds the canvas height. -/
def input3 : BarcodeInput :=
  ⟨"d", "QR", 127 / 15, 127 / 15, 300, [⟨"a", "BELOW", "MEDIUM"⟩, ⟨"b", "BELOW", "MEDIUM"⟩]⟩

/-- QR request on a 1200 x 100 pixel canvas (at 300 DPI) with one MEDIUM
line. -/
def input5 : BarcodeInput :=
  ⟨"d", "QR", 508 / 5, 127 / 15, 300, [⟨"t", "BELOW", "MEDIUM"⟩]⟩

/-- QR request on a 200 x 100 pixel canvas (at 300 DPI) with one MEDIUM
line. -/
def smallInput : BarcodeInput :=
  ⟨"d", "QR", 254 / 15, 127 / 15, 300, [⟨"t", "BELOW", "MEDIUM"⟩]⟩

/-- CODE128 request on a 200 x 100 pixel canvas (at 300 DPI) with two
MEDIUM lines. -/
def input6 : BarcodeInput :=
  ⟨"L", "CODE128", 254 / 15, 127 / 15, 300,
    [⟨"Warehouse A", "ABOVE", "MEDIUM"⟩, ⟨"LOC", "BELOW", "MEDIUM"⟩]⟩

/-- CODE128 request with no text lines. -/
def input7 : BarcodeInput := ⟨"1234567890", "CODE128", 254 / 15, 127 / 15, 300, []⟩

/-- Any size returned by the shrink recursion fits the margin-reduced
width, and lies on the 0.1-point grid below the starting size. -/
theorem addTextLineRecursive_spec (R : TextRasterizer) (text : String) (imgWidth dpi : ℤ) :
    ∀ (fuel : ℕ) (s r : ℚ), addTextLineRecursive R text imgWidth dpi fuel s = some r →
      R.measureWidth text r dpi ≤ imgWidth - labelMarginPixels * 2 ∧
        ∃ k : ℕ, r = s - (k : ℚ) * (1 / 10) := by
  intro fuel
  induction fuel with
  | zero =>
    intro s r h
    simp [addTextLineRecursive] at h
  | succ n ih =>
    intro s r h
    simp only [addTextLineRecursive] at h
    by_cases hc : R.measureWidth text s dpi > imgWidth - labelMarginPixels * 2
    · rw [if_pos hc] at h
      obtain ⟨h1, k, hk⟩ := ih (s - 1 / 10) r h
      refine ⟨h1, k + 1, ?_⟩
      rw [hk]
      push_cast
      ring
    · rw [if_neg hc] at h
      obtain rfl : s = r := Option.some.inj h
      exact ⟨not_lt.mp hc, 0, by norm_num⟩

/-- With the same starting size, a larger available width never produces a
smaller resolved size. -/
theorem addTextLineRecursive_mono (R : TextRasterizer) (text : String) (dpi : ℤ) :
    ∀ (fuel : ℕ) (w1 w2 : ℤ) (s r1 r2 : ℚ), w1 ≤ w2 →
      addTextLineRecursive R text w1 dpi fuel s = some r1 →
      addTextLineRecursive R text w2 dpi fuel s = some r2 → r1 ≤ r2 := by
  intro fuel
  induction fuel with
  | zero =>
    intro w1 w2 s r1 r2 _ h1 _
    simp [addTextLineRecursive] at h1
  | succ n ih =>
    intro w1 w2 s r1 r2 hw h1 h2
    simp only [addTextLineRecursive] at h1 h2
    by_cases hc2 : R.measureWidth text s dpi > w2 - labelMarginPixels * 2
    · have hc1 : R.measureWidth text s dpi > w1 - labelMarginPixels * 2 := by
        have hsub : w1 - labelMarginPixels * 2 ≤ w2 - labelMarginPixels * 2 := by linarith
        linarith
      rw [if_pos hc1] at h1
      rw [if_pos hc2] at h2
      exact ih w1 w2 (s - 1 / 10) r1 r2 hw h1 h2
    · rw [if_neg hc2] at h2
      have hr2 : r2 = s := (Option.some.inj h2).symm
      by_cases hc1 : R.measureWidth text s dpi > w1 - labelMarginPixels * 2
      · rw [if_pos hc1] at h1
        obtain ⟨_, k, hk⟩ := addTextLineRecursive_spec R text w1 dpi n (s - 1 / 10) r1 h1
        have hk0 : (0 : ℚ) ≤ (k : ℚ) * (1 / 10) := by positivity
        rw [hk, hr2]
        linarith
      · rw [if_neg hc1] at h1
        have hr1 : r1 = s := (Option.some.inj h1).symm
        rw [hr1, hr2]

/-- For label widths up to 300 the clamp pins the scale factor at 1.1. -/
theorem scaleFont_eq_of_le_300 (f : ℚ) (w : ℤ) (hw : w ≤ 300) :
    scaleFontByLabelWidth f w = f * (11 / 10) := by
  have hc : ((w : ℚ)) ≤ 300 := by exact_mod_cast hw
  simp only [scaleFontByLabelWidth]
  have hle : (1 : ℚ) + ((w : ℚ) - 200) / 1000 ≤ 11 / 10 := by linarith
  split_ifs with h1 h2
  · exfalso
    linarith
  · rfl
  · have heq : (1 : ℚ) + ((w : ℚ) - 200) / 1000 = 11 / 10 := le_antisymm hle (not_lt.mp h2)
    rw [heq]

/-- For label widths up to 300 getFontSize agrees with the fixed 200px
baseline. -/
theorem getFontSize_eq_of_le_300 (R : TextRasterizer) (s : String) (dpi w : ℤ)
    (hw : w ≤ 300) : getFontSize R s dpi w = getFontSize R s dpi 200 := by
  simp only [getFontSize]
  rw [scaleFont_eq_of_le_300 _ _ hw, scaleFont_eq_of_le_300 _ _ (by norm_num)]

/-- Claim C1: whenever the shrink-to-fit recursion draws a text line, the
resolved size lies on the 0.1-point grid below the initial candidate size
from getFontSize, and the measured pixel width at the resolved size is at
most the canvas width minus two 10px margins, so drawn text never
overflows the label width. -/
theorem addTextLine_fits (R : TextRasterizer) (text sizeClass : String)
    (dpi imgWidth : ℤ) (fuel : ℕ) (r : ℚ)
    (h : addTextLine R text sizeClass dpi imgWidth fuel = some r) :
    R.measureWidth text r dpi ≤ imgWidth - labelMarginPixels * 2 ∧
      ∃ k : ℕ, r = (getFontSize R sizeClass dpi imgWidth).1 - (k : ℚ) * (1 / 10) :=
  addTextLineRecursive_spec R text imgWidth dpi fuel
    (getFontSize R sizeClass dpi imgWidth).1 r h

/-- Claim C1 witness at a concrete rasterizer and request. -/
theorem addTextLine_fits_witness :
    flatR.measureWidth ("abc") 11 300 ≤ 200 - labelMarginPixels * 2 ∧
      ∃ k : ℕ, (11 : ℚ) = (getFontSize flatR ("MEDIUM") 300 200).1 - (k : ℚ) * (1 / 10) :=
  addTextLine_fits flatR ("abc") ("MEDIUM") 300 200 1 11 (by
    simp [addTextLine, addTextLineRecursive, getFontSize, scaleFontByLabelWidth,
      getBaseFontSize, flatR, labelMarginPixels]
    all_goals norm_num)

/-- Claim C2, divergence of the code from the floor contract: the shrink
recursion has no lower floor.  With a rasterizer that never fits a 30px
canvas, the recursion never returns a drawn size at any depth, and from
any candidate size, including sizes at and below 1.0 point, it keeps
shrinking by 0.1 instead of stopping with a TextUnfittable error. -/
theorem fitter_never_stops_no_floor :
    (∀ (fuel : ℕ) (s : ℚ),
      addTextLineRecursive bigR ("LONGTEXT") 30 300 fuel s = none) ∧
    (∀ (fuel : ℕ) (s : ℚ),
      addTextLineRecursive bigR ("LONGTEXT") 30 300 (fuel + 1) s =
        addTextLineRecursive bigR ("LONGTEXT") 30 300 fuel (s - 1 / 10)) := by
  have hstep : ∀ (fuel : ℕ) (s : ℚ),
      addTextLineRecursive bigR ("LONGTEXT") 30 300 (fuel + 1) s =
        addTextLineRecursive bigR ("LONGTEXT") 30 300 fuel (s - 1 / 10) := by
    intro fuel s
    have hcond : bigR.measureWidth ("LONGTEXT") s 300 > 30 - labelMarginPixels * 2 := by
      show (1000 : ℤ) > 30 - labelMarginPixels * 2
      norm_num [labelMarginPixels]
    simp only [addTextLineRecursive]
    rw [if_pos hcond]
  refine ⟨?_, hstep⟩
  intro fuel
  induction fuel with
  | zero =>
    intro s
    rfl
  | succ n ih =>
    intro s
    rw [hstep n s]
    exact ih (s - 1 / 10)

/-- Claim C3 counterexample: on the degenerate QR request input3 the
computed symbol dimension is -20, yet the pipeline itself performs no
dimension check; with a scaling collaborator that accepts the size, the
pipeline succeeds and returns output instead of failing with a
DegenerateLayout error. -/
theorem degenerate_no_error_cx :
    (calculateBarcodeSize constR30 input3 (mmToPixels input3.width input3.dpi)
        (mmToPixels input3.height input3.dpi)).2 ≤ 0 ∧
      generateBarcode constR30 encodeOk scaleOk input3 =
        Except.ok (100, 100, -20, -20) := by
  constructor
  · simp [calculateBarcodeSize, calculateQRSize, calculateTextHeight, getFontSize,
      scaleFontByLabelWidth, getBaseFontSize, mmToPixels, goTrunc, constR30, input3,
      labelMarginPixels, min_def]
    all_goals norm_num [Int.ceil_neg]
  · simp [generateBarcode, validateInput, validateDPI, validateBarcodeType,
      standardDPIValues, encodeOk, scaleOk, calculateBarcodeSize, calculateQRSize,
      calculateTextHeight, getFontSize, scaleFontByLabelWidth, getBaseFontSize,
      mmToPixels, goTrunc, constR30, input3, labelMarginPixels, min_def]
    all_goals norm_num [Int.ceil_neg]

/-- Claim C3 amended: when a computed symbol dimension is non-positive the
pipeline passes it to the scaling collaborator unchecked, and fails with
no output, propagating the collaborator scaling error, exactly when that
collaborator rejects the size. -/
theorem degenerate_propagates_scaler_error (R : TextRasterizer)
    (encode : String → String → Option String) (scale : ℤ → ℤ → Option String)
    (input : BarcodeInput) (e : String)
    (hv : validateInput input = none)
    (he : encode input.barcodeType input.barcodeData = none)
    (hdim : (calculateBarcodeSize R input (mmToPixels input.width input.dpi)
        (mmToPixels input.height input.dpi)).2 ≤ 0)
    (hs : scale (calculateBarcodeSize R input (mmToPixels input.width input.dpi)
          (mmToPixels input.height input.dpi)).1
        (calculateBarcodeSize R input (mmToPixels input.width input.dpi)
          (mmToPixels input.height input.dpi)).2 = some e) :
    generateBarcode R encode scale input = Except.error e := by
  simp only [generateBarcode, hv, he, hs]

/-- Claim C3 amended witness: with a scaler that rejects non-positive
sizes, as the production scaling library does, the degenerate request
fails with the scaler error and no output. -/
theorem degenerate_propagates_scaler_error_witness :
    generateBarcode constR30 encodeOk scaleRej input3 = Except.error ("cannot scale") :=
  degenerate_propagates_scaler_error constR30 encodeOk scaleRej input3 ("cannot scale")
    (by decide)
    (by decide)
    (by simp [calculateBarcodeSize, calculateQRSize, calculateTextHeight, getFontSize,
      scaleFontByLabelWidth, getBaseFontSize, mmToPixels, goTrunc, constR30, input3,
      labelMarginPixels, min_def]
        all_goals norm_num [Int.ceil_neg])
    (by simp [scaleRej, calculateBarcodeSize, calculateQRSize, calculateTextHeight,
      getFontSize, scaleFontByLabelWidth, getBaseFontSize, mmToPixels, goTrunc,
      constR30, input3, labelMarginPixels, min_def]
        all_goals norm_num [Int.ceil_neg])

/-- Claim C4 counterexample: with fitted line height 20 and symbol bottom
edge 100, the code draws at y = 125, while the claimed formula, bottom
edge plus one and a half line heights plus the 5px gutter, gives 135. -/
theorem below_y_cx :
    ((drawTextAdjustedY (calculateTextYPosition 0 100 ("BELOW")) 20 ("BELOW") : ℤ) : ℚ) ≠
      100 + 3 / 2 * 20 + 5 := by
  simp [drawTextAdjustedY, calculateTextYPosition, goTrunc]
  all_goals norm_num [Int.tdiv]

/-- Claim C4 amended: for BELOW text the vertical draw position equals the
symbol rectangle bottom edge plus twice the Go-truncated half line height,
about one line height rather than one and a half, plus the 5px gutter. -/
theorem below_y_formula (rMin rMax : ℤ) (h : ℚ) :
    drawTextAdjustedY (calculateTextYPosition rMin rMax ("BELOW")) h ("BELOW") =
      rMax + Int.tdiv (goTrunc h) 2 * 2 + 5 := by
  simp [drawTextAdjustedY, calculateTextYPosition]

/-- Claim C5 counterexample: at a 1200px-wide canvas the reserved text
height is computed at the fixed 200px baseline, size 11, while the fitter
starts that line at size 20, so the reserved height differs from the sum
of doubled line heights at the fitter starting sizes. -/
theorem reserved_height_cx :
    calculateTextHeight idR input5 ≠
      claimedTextHeight idR input5 (mmToPixels input5.width input5.dpi) := by
  simp [calculateTextHeight, claimedTextHeight, getFontSize, scaleFontByLabelWidth,
    getBaseFontSize, mmToPixels, goTrunc, idR, input5, labelMarginPixels]
  all_goals norm_num

/-- Claim C5 amended: the reserved text height sums twice the line height
at each line size scaled with the fixed 200px baseline, which agrees with
the sizes at which the fitter starts exactly when the canvas width is at
most 300px. -/
theorem reserved_height_baseline (R : TextRasterizer) (input : BarcodeInput)
    (h : mmToPixels input.width input.dpi ≤ 300) :
    calculateTextHeight R input =
      claimedTextHeight R input (mmToPixels input.width input.dpi) := by
  simp only [calculateTextHeight, claimedTextHeight]
  have hf : (fun (totalHeight : ℚ) (textLine : TextLine) =>
        totalHeight + (getFontSize R textLine.size input.dpi 200).2 * 2) =
      (fun (totalHeight : ℚ) (textLine : TextLine) =>
        totalHeight + (getFontSize R textLine.size input.dpi
          (mmToPixels input.width input.dpi)).2 * 2) := by
    funext totalHeight textLine
    rw [getFontSize_eq_of_le_300 R textLine.size input.dpi _ h]
  rw [hf]

/-- Claim C5 amended witness on a 200px-wide request. -/
theorem reserved_height_baseline_witness :
    calculateTextHeight tenR smallInput =
      claimedTextHeight tenR smallInput (mmToPixels smallInput.width smallInput.dpi) :=
  reserved_height_baseline tenR smallInput (by
    simp [mmToPixels, goTrunc, smallInput]
    all_goals norm_num)

/-- Claim C6 counterexample: RECTANGULAR request input6 on a 200 x 100
pixel canvas; the symbol height is 50 and the two drawn text lines are 40
pixels high each, so the symbol height plus the fitted text heights
exceeds the canvas height. -/
theorem height_invariant_cx :
    fittedLineHeight flatR ("Warehouse A") ("MEDIUM") 300
        (mmToPixels input6.width input6.dpi) 1 = some 40 ∧
      fittedLineHeight flatR ("LOC") ("MEDIUM") 300
        (mmToPixels input6.width input6.dpi) 1 = some 40 ∧
      ¬ (((calculateBarcodeSize flatR input6 (mmToPixels input6.width input6.dpi)
            (mmToPixels input6.height input6.dpi)).2 : ℤ) ≤ 0) ∧
      ¬ (((calculateBarcodeSize flatR input6 (mmToPixels input6.width input6.dpi)
            (mmToPixels input6.height input6.dpi)).2 : ℚ) + 40 + 40 ≤
          ((mmToPixels input6.height input6.dpi : ℤ) : ℚ)) := by
  refine ⟨?_, ?_, ?_, ?_⟩
  · simp [fittedLineHeight, addTextLine, addTextLineRecursive, getFontSize,
      scaleFontByLabelWidth, getBaseFontSize, mmToPixels, goTrunc, flatR, input6,
      labelMarginPixels]
    all_goals norm_num
  · simp [fittedLineHeight, addTextLine, addTextLineRecursive, getFontSize,
      scaleFontByLabelWidth, getBaseFontSize, mmToPixels, goTrunc, flatR, input6,
      labelMarginPixels]
    all_goals norm_num
  · simp [calculateBarcodeSize, calculateCode128Size, mmToPixels, goTrunc, flatR,
      input6, labelMarginPixels, min_def, Int.tdiv]
    all_goals norm_num
  · simp [calculateBarcodeSize, calculateCode128Size, mmToPixels, goTrunc, flatR,
      input6, labelMarginPixels, min_def, Int.tdiv]
    all_goals norm_num

/-- Claim C6 amended: for SQUARE symbols, whenever the reserved text
height does not exceed the canvas height, the symbol side plus the
reserved text height never exceeds the canvas height. -/
theorem qr_height_invariant (R : TextRasterizer) (input : BarcodeInput) (lw lh : ℤ)
    (h : calculateTextHeight R input ≤ (lh : ℚ)) :
    ((calculateQRSize R input lw lh).2 : ℚ) + calculateTextHeight R input ≤ (lh : ℚ) := by
  have key : ∀ q : ℚ, q ≤ (lh : ℚ) - calculateTextHeight R input →
      ((goTrunc q : ℤ) : ℚ) ≤ (lh : ℚ) - calculateTextHeight R input := by
    intro q hqle
    by_cases h0 : 0 ≤ q
    · have h2 : ((goTrunc q : ℤ) : ℚ) ≤ q := by
        simp only [goTrunc, if_pos h0]
        exact Int.floor_le q
      linarith
    · push_neg at h0
      have hceil : goTrunc q ≤ 0 := by
        simp only [goTrunc, if_neg (not_le.mpr h0)]
        exact Int.ceil_le.mpr (by exact_mod_cast h0.le)
      have h2 : ((goTrunc q : ℤ) : ℚ) ≤ 0 := by exact_mod_cast hceil
      linarith
  have hmain := key (min (((min lw lh : ℤ)) : ℚ) ((lh : ℚ) - calculateTextHeight R input))
    (min_le_right _ _)
  simp only [calculateQRSize]
  linarith

/-- Claim C6 amended witness on a square request that leaves room for the
reserved text height. -/
theorem qr_height_invariant_witness :
    ((calculateQRSize tenR smallInput 200 100).2 : ℚ) +
        calculateTextHeight tenR smallInput ≤ ((100 : ℤ) : ℚ) :=
  qr_height_invariant tenR smallInput 200 100 (by
    simp [calculateTextHeight, getFontSize, scaleFontByLabelWidth, getBaseFontSize,
      tenR, smallInput]
    all_goals norm_num)

/-- Claim C7: for CODE128 requests the computed symbol size is the canvas
width minus two 10px margins, paired with the minimum of half the canvas
height, under Go truncating integer division, and the 200px cap. -/
theorem code128_size_formula (R : TextRasterizer) (input : BarcodeInput) (lw lh : ℤ)
    (htype : input.barcodeType = "CODE128") (hw : 20 < lw) :
    calculateBarcodeSize R input lw lh = (lw - 20, min (Int.tdiv lh 2) 200) := by
  unfold calculateBarcodeSize
  rw [if_pos htype]
  unfold calculateCode128Size
  norm_num [labelMarginPixels]

/-- Claim C7 witness on a 300 x 150 pixel canvas. -/
theorem code128_size_formula_witness :
    calculateBarcodeSize flatR input7 300 150 = (300 - 20, min (Int.tdiv 150 2) 200) :=
  code128_size_formula flatR input7 300 150 rfl (by norm_num)

/-- Claim C8: for each accepted resolution r, one inch (25.4 mm) converts
to exactly r pixels. -/
theorem one_inch_exact (r : ℤ) (h : r ∈ standardDPIValues) :
    mmToPixels (254 / 10) r = r := by
  have hcases : r = 203 ∨ r = 300 ∨ r = 600 := by
    simpa [standardDPIValues] using h
  rcases hcases with rfl | rfl | rfl <;> norm_num [mmToPixels, goTrunc]

/-- Claim C8 witness at 300 DPI. -/
theorem one_inch_exact_witness : mmToPixels (254 / 10) 300 = 300 :=
  one_inch_exact 300 (by decide)

/-- Claim C9 counterexample: a rasterizer whose measured width is monotone
in the point size, for which widening the canvas from 300 to 301 pixels
lowers the resolved size from 11 to 10.91, because the wider canvas
starts the shrink loop on a different 0.1-point grid. -/
theorem fitter_monotone_cx :
    addTextLine stepR ("x") ("MEDIUM") 300 300 5 = some 11 ∧
      addTextLine stepR ("x") ("MEDIUM") 300 301 5 = some (1091 / 100) ∧
      (1091 / 100 : ℚ) < 11 := by
  refine ⟨?_, ?_, by norm_num⟩
  · simp [addTextLine, addTextLineRecursive, getFontSize, scaleFontByLabelWidth,
      getBaseFontSize, stepR, labelMarginPixels]
    all_goals norm_num
  · simp [addTextLine, addTextLineRecursive, getFontSize, scaleFontByLabelWidth,
      getBaseFontSize, stepR, labelMarginPixels]
    all_goals norm_num

/-- Claim C9 amended: the resolved size is monotone in the available width
whenever both widths lie in the lower clamp region, width at most 300px,
where the starting candidate size is the same. -/
theorem fitter_monotone_same_start (R : TextRasterizer) (text sizeClass : String)
    (dpi w1 w2 : ℤ) (fuel : ℕ) (r1 r2 : ℚ) (hw : w1 ≤ w2) (h300 : w2 ≤ 300)
    (h1 : addTextLine R text sizeClass dpi w1 fuel = some r1)
    (h2 : addTextLine R text sizeClass dpi w2 fuel = some r2) :
    r1 ≤ r2 := by
  simp only [addTextLine] at h1 h2
  rw [getFontSize_eq_of_le_300 R sizeClass dpi w1 (le_trans hw h300)] at h1
  rw [getFontSize_eq_of_le_300 R sizeClass dpi w2 h300] at h2
  exact addTextLineRecursive_mono R text dpi fuel w1 w2
    (getFontSize R sizeClass dpi 200).1 r1 r2 hw h1 h2

/-- Claim C9 amended witness: at widths 260 and 300 the resolved sizes are
10.8 and 11 under a monotone rasterizer. -/
theorem fitter_monotone_same_start_witness : (54 / 5 : ℚ) ≤ 11 :=
  fitter_monotone_same_start windowR ("x") ("MEDIUM") 300 260 300 5 (54 / 5) 11
    (by norm_num) (by norm_num)
    (by
      simp [addTextLine, addTextLineRecursive, getFontSize, scaleFontByLabelWidth,
        getBaseFontSize, windowR, labelMarginPixels]
      all_goals norm_num)
    (by
      simp [addTextLine, addTextLineRecursive, getFontSize, scaleFontByLabelWidth,
        getBaseFontSize, windowR, labelMarginPixels]
      all_goals norm_num)

/-- Claim C10: every text size class other than SMALL, MEDIUM and LARGE
falls into the default branch and gets base size 10.0, identical to
MEDIUM, with no error. -/
theorem base_font_default_medium (s : String)
    (h1 : s ≠ "SMALL") (h2 : s ≠ "MEDIUM") (h3 : s ≠ "LARGE") :
    getBaseFontSize s = 10 ∧ getBaseFontSize s = getBaseFontSize ("MEDIUM") := by
  have hs : getBaseFontSize s = 10 := by
    unfold getBaseFontSize
    rw [if_neg h1, if_neg h2, if_neg h3]
  refine ⟨hs, ?_⟩
  rw [hs]
  simp [getBaseFontSize]

/-- Claim C10 witness at the unrecognized class HUGE. -/
theorem base_font_default_medium_witness :
    getBaseFontSize ("HUGE") = 10 ∧ getBaseFontSize ("HUGE") = getBaseFontSize ("MEDIUM") :=
  base_font_default_medium ("HUGE") (by decide) (by decide) (by decide)

end BarcodeGen
